import Mathlib

/-!
Verification of the audit-log / change-tracking pipeline of the
office-hub-pro dashboard.

The development shallowly embeds, from the repository sources:

* the Change Differ and Audit Writer: the corrected trigger function
  log_employee_change (migration 20251126161027), the employee_audit_log
  table with its NOT NULL columns, the AFTER INSERT / AFTER UPDATE /
  BEFORE DELETE triggers on employees, and the foreign-key policy
  employee_audit_log_employee_id_fkey ON DELETE SET NULL;
* the Notification Dispatcher: the send-employee-update-notification
  edge function (migration file 20251210174704), with its admin-role
  resolution, field-diff loop over newData, field labels, Yes/No
  rendering and HTTP-like status results;
* the update branch of EmployeeForm.onSubmit, which commits the record
  update, reports success, and then invokes the dispatcher inside a
  try/catch that swallows notification failures.

JSONB row images are modelled as association lists from column names to
JSON values.  Composite JSONB values (the custom_peripherals array) are
carried unparsed, by their serialized text, which is exactly what
jsonb_each_text exposes of them on the SQL side; on the JS side two
parsed composites are never reference-equal, which jsEqVal reflects.
-/

namespace OfficeHub

/-- A JSONB / JS value as it occurs in an employee row image: null,
boolean, string, integer, or a composite (array or object) kept unparsed and
identified by its serialized JSON text. -/
inductive Value where
  | vNull : Value
  | vBool : Bool → Value
  | vStr : String → Value
  | vNum : Int → Value
  | vJson : String → Value
deriving DecidableEq, Repr

/-- A row image (to_jsonb of a row, or a JS object): association list
from field name to value.  JSON objects have pairwise distinct keys;
statements that need this assume it explicitly. -/
abbrev Snapshot := List (String × Value)

/-- Field lookup in an association list (JS property access, or the
value jsonb_each_text yields for a key); none models a missing key. -/
def alookup {α : Type} (k : String) : List (String × α) → Option α
  | [] => none
  | (k1, v) :: rest => if k1 = k then some v else alookup k rest

/-- The key list of a row image. -/
def skeys {α : Type} (s : List (String × α)) : List String :=
  s.map Prod.fst

/-- Text serialization of a single JSONB value as produced by
jsonb_each_text: JSON null becomes SQL NULL (none), booleans the
literal texts true / false, strings their contents, numbers their
decimal text, composites their JSON text. -/
def pgSer : Value → Option String
  | .vNull => none
  | .vBool b => some (if b then "true" else "false")
  | .vStr s => some s
  | .vNum n => some (toString n)
  | .vJson s => some s

/-- Serialized view of a possibly-missing field: a key absent from the
row image and a key holding JSON null both read back as SQL NULL, which
is exactly how the FULL OUTER JOIN in log_employee_change sees them. -/
def pgSerOpt : Option Value → Option String
  | none => none
  | some v => pgSer v

/-- Key set of the FULL OUTER JOIN of jsonb_each_text(to_jsonb(OLD))
with jsonb_each_text(to_jsonb(NEW)) USING (key): every key of the old
image, then every key of the new image not already present. -/
def keyUnion (l r : List String) : List String :=
  l ++ r.filter (fun k => decide (k ∉ l))

/-- The WHERE clause of the changed_keys subquery in
log_employee_change: old_vals.value IS DISTINCT FROM new_vals.value,
and key is not the literal updated_at. -/
def changedB (old new : Snapshot) (k : String) : Bool :=
  decide (pgSerOpt (alookup k old) ≠ pgSerOpt (alookup k new)) &&
    decide (k ≠ "updated_at")

/-- A computed field-level diff: field name paired with the serialized
old and new values, as aggregated by jsonb_object_agg in
log_employee_change. -/
abbrev Diff := List (String × Option String × Option String)

/-- The Change Differ: the changed_keys subquery of the corrected
log_employee_change, keyed over the join of the two row images,
filtered by IS DISTINCT FROM and the updated_at exclusion, each
surviving key paired with its serialized old and new values. -/
def changesOf (old new : Snapshot) : Diff :=
  ((keyUnion (skeys old) (skeys new)).filter (changedB old new)).map
    (fun k => (k, pgSerOpt (alookup k old), pgSerOpt (alookup k new)))

/-- The value stored in the changes column for an UPDATE:
jsonb_object_agg over zero rows yields SQL NULL, so an empty diff is
stored as NULL rather than as an empty object. -/
def aggDiff (old new : Snapshot) : Option Diff :=
  if changesOf old new = [] then none else some (changesOf old new)

/-- JS strict equality (triple equals) on two values of the dispatcher
payload.  Scalars compare by kind and content; two composite values
coming out of JSON parsing are distinct object references, hence never
strictly equal. -/
def jsEqVal : Value → Value → Bool
  | .vNull, .vNull => true
  | .vBool a, .vBool b => a = b
  | .vStr a, .vStr b => a = b
  | .vNum a, .vNum b => a = b
  | _, _ => false

/-- The comparison oldData[key] !== newData[key]: undefined (missing
key) is strictly different from every present value, including null. -/
def jsStrictNe : Option Value → Option Value → Bool
  | none, none => false
  | none, some _ => true
  | some _, none => true
  | some a, some b => !(jsEqVal a b)

/-- String(value) on a defined, non-null JS value. -/
def jsToString : Value → String
  | .vNull => "null"
  | .vBool b => if b then "true" else "false"
  | .vStr s => s
  | .vNum n => toString n
  | .vJson s => s

/-- The display text of a field value in the dispatcher: null and
undefined render as the sentinel, everything else via String(value). -/
def jsDisplay : Option Value → String
  | none => "Not set"
  | some .vNull => "Not set"
  | some v => jsToString v

/-- The nested ternary applied to each rendered value: the serialized
boolean texts map to Yes / No, everything else passes through. -/
def yesNo (s : String) : String :=
  if s = "true" then "Yes" else if s = "false" then "No" else s

/-- The fieldLabels object of the edge function: human label per field
name. -/
def fieldLabels : List (String × String) :=
  [("name", "Name"),
   ("username", "Username"),
   ("email", "Email"),
   ("department", "Department"),
   ("section", "Section"),
   ("computer_name", "Computer Name"),
   ("computer_serial", "Computer Serial"),
   ("ip_address", "IP Address"),
   ("specs", "Specifications"),
   ("led_model", "LED Model"),
   ("led_serial", "LED Serial"),
   ("printer_model", "Printer Model"),
   ("printer_serial", "Printer Serial"),
   ("scanner_model", "Scanner Model"),
   ("scanner_serial", "Scanner Serial"),
   ("keyboard", "Keyboard"),
   ("mouse", "Mouse"),
   ("internet_access", "Internet Access"),
   ("usb_access", "USB Access"),
   ("last_pm", "Last PM"),
   ("extension_number", "Extension Number")]

/-- fieldLabels[key] with the JS or-else fallback to the raw key: an
undefined label, or an empty-string label, both fall back to key. -/
def labelFor (k : String) : String :=
  match alookup k fieldLabels with
  | some l => if l = "" then k else l
  | none => k

/-- The guard of the changes loop in the edge function: key is none of
updated_at, created_at, id, and oldData[key] !== newData[key]. -/
def changeCond (old : Snapshot) (k : String) (v : Value) : Bool :=
  decide (k ≠ "updated_at") && decide (k ≠ "created_at") &&
    decide (k ≠ "id") && jsStrictNe (alookup k old) (some v)

/-- One row pushed onto the changes array: labelled field name and the
two rendered values. -/
structure Change where
  field : String
  oldValue : String
  newValue : String
deriving DecidableEq, Repr

/-- The change row built for a qualifying key. -/
def renderChange (old : Snapshot) (k : String) (v : Value) : Change :=
  { field := labelFor k
    oldValue := yesNo (jsDisplay (alookup k old))
    newValue := yesNo (jsDisplay (some v)) }

/-- The changes array of the edge function: the for-in loop runs over
the keys of newData in order and pushes a rendered row for each key
passing the guard. -/
def dispatcherChanges (old new : Snapshot) : List Change :=
  new.filterMap
    (fun kv => if changeCond old kv.1 kv.2 then some (renderChange old kv.1 kv.2) else none)

/-- The changed-field set of the same loop, before labelling: the raw
keys for which a change row is pushed. -/
def dispatcherChangedKeys (old new : Snapshot) : List String :=
  new.filterMap
    (fun kv => if changeCond old kv.1 kv.2 then some kv.1 else none)

/-- A row of public.profiles: email is NOT NULL, full_name is
nullable. -/
structure Profile where
  email : String
  full_name : Option String
deriving DecidableEq, Repr

/-- The acting user as the trigger sees it: auth.uid() (non-null for an
authenticated caller) and the result of the profiles lookup, none when
no profile row matches auth.uid(); SELECT INTO without STRICT leaves
the variables NULL in that case instead of raising. -/
structure Actor where
  uid : String
  profile : Option Profile
deriving DecidableEq, Repr

/-- A row of public.employee_audit_log.  changed_by and
changed_by_email are declared NOT NULL; changed_by_email is carried
here as an Option holding the value the trigger attempts to insert, and
insertAuditRow enforces the constraint. -/
structure AuditRow where
  employee_id : Option String
  action : String
  changed_by : String
  changed_by_email : Option String
  changed_by_name : Option String
  old_data : Option Snapshot
  new_data : Option Snapshot
  changes : Option Diff
deriving DecidableEq, Repr

/-- TG_OP of the firing trigger. -/
inductive TgOp where
  | ins : TgOp
  | upd : TgOp
  | del : TgOp
deriving DecidableEq, Repr

/-- The error a NULL changed_by_email raises on insert into
employee_audit_log. -/
def notNullViolation : String :=
  "null value in column changed_by_email violates not-null constraint"

/-- The INSERT INTO public.employee_audit_log statement: the NOT NULL
constraint on changed_by_email rejects a row whose email is NULL, and
inside the trigger that failure aborts the whole transaction. -/
def insertAuditRow (r : AuditRow) : Except String AuditRow :=
  if r.changed_by_email.isSome then .ok r else .error notNullViolation

/-- The trigger function log_employee_change (corrected version of
migration 20251126161027): resolve the actor profile, compute the diff
for UPDATE only, and insert one audit row shaped per TG_OP.  The
surrounding store passes eid as OLD.id / NEW.id and the row images as
to_jsonb(OLD) / to_jsonb(NEW). -/
def logEmployeeChange (op : TgOp) (actor : Actor) (eid : String)
    (oldR newR : Option Snapshot) : Except String AuditRow :=
  let user_email : Option String := actor.profile.map Profile.email
  let user_name : Option String := actor.profile.bind Profile.full_name
  let changes_json : Option Diff :=
    match op, oldR, newR with
    | .upd, some o, some n => aggDiff o n
    | _, _, _ => none
  match op with
  | .del =>
      insertAuditRow
        { employee_id := some eid, action := "DELETE", changed_by := actor.uid
          changed_by_email := user_email, changed_by_name := user_name
          old_data := oldR, new_data := none, changes := none }
  | .upd =>
      insertAuditRow
        { employee_id := some eid, action := "UPDATE", changed_by := actor.uid
          changed_by_email := user_email, changed_by_name := user_name
          old_data := oldR, new_data := newR, changes := changes_json }
  | .ins =>
      insertAuditRow
        { employee_id := some eid, action := "INSERT", changed_by := actor.uid
          changed_by_email := user_email, changed_by_name := user_name
          old_data := none, new_data := newR, changes := none }

/-- The persistent state: the employees table (id to row image) and the
employee_audit_log table in insertion order. -/
structure StoreState where
  employees : List (String × Snapshot)
  audit : List AuditRow
deriving DecidableEq, Repr

/-- The ON DELETE SET NULL action of
employee_audit_log_employee_id_fkey: every audit row referencing the
removed employee keeps its data but loses the reference. -/
def fkSetNull (eid : String) (r : AuditRow) : AuditRow :=
  if r.employee_id = some eid then { r with employee_id := none } else r

/-- INSERT on employees followed by the AFTER INSERT trigger
employee_audit_insert; a trigger failure aborts the transaction, so the
row only lands together with its audit entry. -/
def insertEmployee (s : StoreState) (actor : Actor) (eid : String)
    (snap : Snapshot) : Except String StoreState :=
  match logEmployeeChange .ins actor eid none (some snap) with
  | .error e => .error e
  | .ok entry =>
      .ok { employees := s.employees ++ [(eid, snap)]
            audit := s.audit ++ [entry] }

/-- UPDATE on employees followed by the AFTER UPDATE trigger
employee_audit_update.  newSnap is the NEW row image after the store
applied the client patch and the update_updated_at_column BEFORE UPDATE
trigger refreshed updated_at.  An update matching no row mutates
nothing and fires no trigger. -/
def updateEmployee (s : StoreState) (actor : Actor) (eid : String)
    (newSnap : Snapshot) : Except String StoreState :=
  match alookup eid s.employees with
  | none => .ok s
  | some oldSnap =>
      match logEmployeeChange .upd actor eid (some oldSnap) (some newSnap) with
      | .error e => .error e
      | .ok entry =>
          .ok { employees :=
                  s.employees.map (fun q => if q.1 = eid then (eid, newSnap) else q)
                audit := s.audit ++ [entry] }

/-- DELETE on employees: the BEFORE DELETE trigger employee_audit_delete
(re-created in that position by the fix migration) runs while the row
still exists, so the audit entry captures the intact row image; then
the row is removed and the FK ON DELETE SET NULL action nulls
employee_id on every audit row referencing it, including the one just
written. -/
def deleteEmployee (s : StoreState) (actor : Actor) (eid : String) :
    Except String StoreState :=
  match alookup eid s.employees with
  | none => .ok s
  | some oldSnap =>
      match logEmployeeChange .del actor eid (some oldSnap) none with
      | .error e => .error e
      | .ok entry =>
          .ok { employees := s.employees.filter (fun q => decide (q.1 ≠ eid))
                audit := (s.audit ++ [entry]).map (fkSetNull eid) }

/-- The request body of send-employee-update-notification. -/
structure NotifyRequest where
  employeeName : String
  employeeDepartment : String
  employeeSection : String
  changedBy : String
  changedByEmail : String
  oldData : Snapshot
  newData : Snapshot
deriving DecidableEq, Repr

/-- The observable outcome of one handler run: HTTP status and the
recipient list of the email actually handed to the transport (empty
when no send happened). -/
structure HandlerResult where
  status : Nat
  emailedTo : List String
deriving DecidableEq, Repr

/-- The edge-function handler on a POST request: resolve admin role
holders (a query error is thrown and caught as 500); an empty admin
list returns 200 without sending; resolve their profile emails (error
gives 500); compute the changes array; an empty array returns 200
without sending; otherwise hand one email to the transport addressed to
all admin emails, 200 on success and 500 when the send throws.  The
directory and transport collaborators enter as their result values. -/
def handler (req : NotifyRequest) (adminRolesRes : Except String (List String))
    (profilesRes : Except String (List String))
    (sendRes : Except String String) : HandlerResult :=
  match adminRolesRes with
  | .error _ => { status := 500, emailedTo := [] }
  | .ok adminRoles =>
      if adminRoles.isEmpty then
        { status := 200, emailedTo := [] }
      else
        match profilesRes with
        | .error _ => { status := 500, emailedTo := [] }
        | .ok adminEmails =>
            if (dispatcherChanges req.oldData req.newData).isEmpty then
              { status := 200, emailedTo := [] }
            else
              match sendRes with
              | .error _ => { status := 500, emailedTo := [] }
              | .ok _ => { status := 200, emailedTo := adminEmails }

/-- A toast shown by the form. -/
inductive ToastMsg where
  | success : String → ToastMsg
  | error : String → ToastMsg
deriving DecidableEq, Repr

/-- What the update branch of EmployeeForm.onSubmit leaves behind:
the toasts shown, whether the notification invocation was attempted,
and whether the flow reached its onSuccess / navigate tail. -/
structure SubmitResult where
  toasts : List ToastMsg
  notifyAttempted : Bool
  completedNavigation : Bool
deriving DecidableEq, Repr

/-- The update branch of EmployeeForm.onSubmit: a failed update throws
to the outer catch, which shows the error toast and skips everything
else; a successful update shows the success toast first, then attempts
the notification inside an inner try/catch whose handler only logs, so
the notification outcome never reaches the user, and the flow proceeds
to onSuccess / navigate either way. -/
def onSubmitUpdate (updateRes : Except String Unit)
    (notifyRes : Except String Unit) : SubmitResult :=
  match updateRes with
  | .error e =>
      { toasts := [.error e], notifyAttempted := false, completedNavigation := false }
  | .ok _ =>
      match notifyRes with
      | .ok _ =>
          { toasts := [.success "Employee updated successfully"]
            notifyAttempted := true, completedNavigation := true }
      | .error _ =>
          { toasts := [.success "Employee updated successfully"]
            notifyAttempted := true, completedNavigation := true }

/-- The keys of the zod employeeSchema in EmployeeForm: the validated
form data sent as newData to the notification function carries only
these fields (the database update additionally attaches
custom_peripherals, but the notification payload is the plain form
data). -/
def employeeSchemaKeys : List String :=
  ["name", "username", "email", "department", "section", "location",
   "computer_name", "computer_serial", "ip_address", "specs",
   "led_model", "led_serial", "printer_model", "printer_serial",
   "scanner_model", "scanner_serial", "keyboard", "mouse",
   "internet_access", "usb_access", "last_pm", "extension_number"]

/-- Row-image fields that the form never sends in newData. -/
def hiddenFields : List String :=
  ["custom_peripherals", "id", "created_at", "updated_at", "created_by"]

/-! ### Concrete inputs used by witnesses and counterexamples -/

/-- A resolvable acting-user profile. -/
def exProfile : Profile :=
  { email := "admin@office.test", full_name := some "Admin User" }

/-- An authenticated actor whose profile lookup succeeds. -/
def exActor : Actor := { uid := "user-1", profile := some exProfile }

/-- An authenticated actor with no profiles row: the SELECT INTO of
log_employee_change leaves both identity variables NULL. -/
def exActorNoProfile : Actor := { uid := "user-2", profile := none }

/-- An actor whose profile exists but has a NULL full_name. -/
def exActorNoName : Actor :=
  { uid := "user-3", profile := some { email := "noname@office.test", full_name := none } }

/-- A stored employee row image. -/
def exSnapA : Snapshot :=
  [("id", .vStr "e1"), ("name", .vStr "Alice"),
   ("internet_access", .vBool true), ("updated_at", .vStr "2026-01-01")]

/-- The same row after a real edit: name and internet_access changed,
updated_at refreshed. -/
def exSnapB : Snapshot :=
  [("id", .vStr "e1"), ("name", .vStr "Bob"),
   ("internet_access", .vBool false), ("updated_at", .vStr "2026-01-02")]

/-- The same row after a no-op edit: only updated_at differs from
exSnapA. -/
def exSnapA2 : Snapshot :=
  [("id", .vStr "e1"), ("name", .vStr "Alice"),
   ("internet_access", .vBool true), ("updated_at", .vStr "2026-01-02")]

/-- A pre-existing audit entry referencing employee e1. -/
def exPriorRow : AuditRow :=
  { employee_id := some "e1", action := "INSERT", changed_by := "user-1"
    changed_by_email := some "admin@office.test"
    changed_by_name := some "Admin User"
    old_data := none, new_data := some exSnapA, changes := none }

/-- A store holding employee e1 and one prior audit entry for it. -/
def exStore : StoreState :=
  { employees := [("e1", exSnapA)], audit := [exPriorRow] }

/-- Old payload for the dispatcher-versus-differ comparison: a field
that the new payload does not carry at all. -/
def exOld7 : Snapshot := [("location", .vStr "HQ")]

/-- New payload missing that field. -/
def exNew7 : Snapshot := []

/-- Old payload of the internet_access rendering scenario. -/
def exIAOld : Snapshot := [("internet_access", .vBool true)]

/-- New payload of the internet_access rendering scenario. -/
def exIANew : Snapshot := [("internet_access", .vBool false)]

/-- A notification request whose payloads agree on every field the form
sends: a no-op update from the dispatcher viewpoint. -/
def exReqNoop : NotifyRequest :=
  { employeeName := "Alice", employeeDepartment := "IT"
    employeeSection := "Dev", changedBy := "Admin User"
    changedByEmail := "admin@office.test"
    oldData := exSnapA
    newData := [("name", .vStr "Alice"), ("internet_access", .vBool true)] }

/-- An old row image carrying a custom_peripherals composite. -/
def exOldCP : Snapshot :=
  [("custom_peripherals", .vJson "[]"), ("name", .vStr "Alice")]

/-- A form payload (schema fields only) equal to the old image on its
shared fields: only the custom peripherals differ at the store level. -/
def exNewCP : Snapshot := [("name", .vStr "Alice")]

/-! ### Association-list facts used across the claims -/

theorem alookup_mem {α : Type} {k : String} {v : α} {l : List (String × α)}
    (h : alookup k l = some v) : (k, v) ∈ l := by
  induction l with
  | nil => simp [alookup] at h
  | cons p rest ih =>
      obtain ⟨k1, v1⟩ := p
      simp only [alookup] at h
      by_cases hk : k1 = k
      · rw [if_pos hk] at h
        injection h with hv
        subst hk
        subst hv
        exact List.mem_cons_self _ _
      · rw [if_neg hk] at h
        exact List.mem_cons_of_mem _ (ih h)

theorem mem_skeys_alookup {α : Type} {k : String} {l : List (String × α)}
    (h : k ∈ skeys l) : ∃ v, alookup k l = some v := by
  induction l with
  | nil => simp [skeys] at h
  | cons p rest ih =>
      obtain ⟨k1, v1⟩ := p
      by_cases hk : k1 = k
      · exact ⟨v1, by simp [alookup, hk]⟩
      · have : k ∈ skeys rest := by
          simpa [skeys, Ne.symm hk] using h
        obtain ⟨v, hv⟩ := ih this
        exact ⟨v, by simp [alookup, hk, hv]⟩

theorem alookup_eq_none_of_not_mem {α : Type} {k : String}
    {l : List (String × α)} (h : k ∉ skeys l) : alookup k l = none := by
  induction l with
  | nil => rfl
  | cons p rest ih =>
      obtain ⟨k1, v1⟩ := p
      have hk : k1 ≠ k := by
        intro hkk
        exact h (by simp [skeys, hkk])
      have hrest : k ∉ skeys rest := by
        intro hm
        exact h (by simp [skeys] at hm ⊢; exact Or.inr hm)
      simp [alookup, hk, ih hrest]

theorem alookup_of_nodup_mem {α : Type} {k : String} {v : α}
    {l : List (String × α)} (hnd : (skeys l).Nodup) (h : (k, v) ∈ l) :
    alookup k l = some v := by
  induction l with
  | nil => simp at h
  | cons p rest ih =>
      obtain ⟨k1, v1⟩ := p
      have hnd1 : k1 ∉ skeys rest ∧ (skeys rest).Nodup := by
        simpa [skeys] using hnd
      rcases List.mem_cons.mp h with h1 | h1
      · have hk : k = k1 := congrArg Prod.fst h1
        have hv : v = v1 := congrArg Prod.snd h1
        simp [alookup, hk, hv]
      · have hkr : k ∈ skeys rest := by
          simpa [skeys] using List.mem_map_of_mem Prod.fst h1
        have hk1 : k1 ≠ k := fun he => hnd1.1 (he ▸ hkr)
        simp only [alookup, if_neg hk1]
        exact ih hnd1.2 h1

theorem mem_keyUnion {k : String} {l r : List String} :
    k ∈ keyUnion l r ↔ k ∈ l ∨ k ∈ r := by
  simp only [keyUnion, List.mem_append, List.mem_filter, decide_eq_true_eq]
  constructor
  · rintro (h | ⟨h, _⟩)
    · exact Or.inl h
    · exact Or.inr h
  · intro h
    by_cases hl : k ∈ l
    · exact Or.inl hl
    · rcases h with h | h
      · exact absurd h hl
      · exact Or.inr ⟨h, hl⟩

theorem getLast?_append_singleton {α : Type} (l : List α) (a : α) :
    (l ++ [a]).getLast? = some a := by
  rw [List.getLast?_append_cons]
  rfl

/-- The key column of the computed diff is exactly the filtered key
union. -/
theorem changesOf_keys (old new : Snapshot) :
    (changesOf old new).map Prod.fst =
      (keyUnion (skeys old) (skeys new)).filter (changedB old new) := by
  unfold changesOf
  generalize (keyUnion (skeys old) (skeys new)).filter (changedB old new) = l
  induction l with
  | nil => rfl
  | cons a t ih => simp [ih]

/-- Membership in the computed diff, characterized by the serialized
values alone: a field qualifies exactly when its serialized old and new
values are distinct and it is not updated_at. -/
theorem mem_changesOf_keys (old new : Snapshot) (F : String) :
    F ∈ (changesOf old new).map Prod.fst ↔
      (pgSerOpt (alookup F old) ≠ pgSerOpt (alookup F new) ∧ F ≠ "updated_at") := by
  rw [changesOf_keys, List.mem_filter]
  constructor
  · rintro ⟨-, hcond⟩
    simpa [changedB] using hcond
  · rintro ⟨hne, hua⟩
    refine ⟨?_, by simpa [changedB] using And.intro hne hua⟩
    rw [mem_keyUnion]
    by_contra hnot
    push_neg at hnot
    rw [alookup_eq_none_of_not_mem hnot.1, alookup_eq_none_of_not_mem hnot.2] at hne
    exact hne rfl

/-! ### Claim theorems -/

/-- Claim C1: for every pair of old and new row images compared on
UPDATE, the Diff computed by log_employee_change contains a field F
exactly when the serialized values of old[F] and new[F] differ, and it
never contains the update-timestamp field updated_at. -/
theorem diff_iff_serialized_differ (old new : Snapshot) :
    (∀ F : String, F ∈ (changesOf old new).map Prod.fst ↔
      (pgSerOpt (alookup F old) ≠ pgSerOpt (alookup F new) ∧ F ≠ "updated_at")) ∧
    "updated_at" ∉ (changesOf old new).map Prod.fst := by
  refine ⟨fun F => mem_changesOf_keys old new F, fun h => ?_⟩
  exact ((mem_changesOf_keys old new "updated_at").mp h).2 rfl

/-- Claim C2: every record mutation produces exactly one audit entry
whose action matches the mutation kind and whose shape follows it:
INSERT appends one entry with old absent, new the full new image and no
diff; UPDATE appends one entry with both full images and the computed
diff (stored as NULL when empty, per jsonb_object_agg over zero rows);
DELETE appends one entry with the full old image, new absent and no
diff. -/
theorem one_audit_entry_per_mutation :
    (∀ (s : StoreState) (actor : Actor) (p : Profile) (eid : String) (snap : Snapshot),
      actor.profile = some p →
      ∃ e : AuditRow,
        insertEmployee s actor eid snap =
          .ok { employees := s.employees ++ [(eid, snap)], audit := s.audit ++ [e] } ∧
        e.action = "INSERT" ∧ e.old_data = none ∧ e.new_data = some snap ∧
        e.changes = none) ∧
    (∀ (s : StoreState) (actor : Actor) (p : Profile) (eid : String)
        (oldSnap newSnap : Snapshot),
      actor.profile = some p → alookup eid s.employees = some oldSnap →
      ∃ (e : AuditRow) (s2 : StoreState),
        updateEmployee s actor eid newSnap = .ok s2 ∧ s2.audit = s.audit ++ [e] ∧
        e.action = "UPDATE" ∧ e.old_data = some oldSnap ∧ e.new_data = some newSnap ∧
        e.changes = aggDiff oldSnap newSnap) ∧
    (∀ (s : StoreState) (actor : Actor) (p : Profile) (eid : String)
        (oldSnap : Snapshot),
      actor.profile = some p → alookup eid s.employees = some oldSnap →
      ∃ (e : AuditRow) (s2 : StoreState),
        deleteEmployee s actor eid = .ok s2 ∧
        s2.audit.length = s.audit.length + 1 ∧
        s2.audit.getLast? = some e ∧
        e.action = "DELETE" ∧ e.old_data = some oldSnap ∧ e.new_data = none ∧
        e.changes = none) := by
  refine ⟨?_, ?_, ?_⟩
  · intro s actor p eid snap hp
    refine ⟨{ employee_id := some eid, action := "INSERT", changed_by := actor.uid
              changed_by_email := some p.email, changed_by_name := p.full_name
              old_data := none, new_data := some snap, changes := none },
            ?_, rfl, rfl, rfl, rfl⟩
    simp [insertEmployee, logEmployeeChange, insertAuditRow, hp]
  · intro s actor p eid oldSnap newSnap hp hrow
    refine ⟨{ employee_id := some eid, action := "UPDATE", changed_by := actor.uid
              changed_by_email := some p.email, changed_by_name := p.full_name
              old_data := some oldSnap, new_data := some newSnap
              changes := aggDiff oldSnap newSnap },
            { employees := s.employees.map (fun q => if q.1 = eid then (eid, newSnap) else q)
              audit := s.audit ++
                [{ employee_id := some eid, action := "UPDATE", changed_by := actor.uid
                   changed_by_email := some p.email, changed_by_name := p.full_name
                   old_data := some oldSnap, new_data := some newSnap
                   changes := aggDiff oldSnap newSnap }] },
            ?_, rfl, rfl, rfl, rfl, rfl⟩
    simp [updateEmployee, hrow, logEmployeeChange, insertAuditRow, hp]
  · intro s actor p eid oldSnap hp hrow
    have hdel : deleteEmployee s actor eid =
        .ok { employees := s.employees.filter (fun q => decide (q.1 ≠ eid))
              audit := (s.audit ++
                [({ employee_id := some eid, action := "DELETE", changed_by := actor.uid
                    changed_by_email := some p.email, changed_by_name := p.full_name
                    old_data := some oldSnap, new_data := none,
                    changes := none } : AuditRow)]).map (fkSetNull eid) } := by
      simp [deleteEmployee, hrow, logEmployeeChange, insertAuditRow, hp]
    refine ⟨{ employee_id := none, action := "DELETE", changed_by := actor.uid
              changed_by_email := some p.email, changed_by_name := p.full_name
              old_data := some oldSnap, new_data := none, changes := none },
            _, hdel, ?_, ?_, rfl, rfl, rfl, rfl⟩
    · simp
    · rw [List.map_append]
      simp only [List.map_cons, List.map_nil]
      rw [getLast?_append_singleton]
      simp [fkSetNull]

/-- Witness: the three mutation kinds, run on concrete stores, each
append exactly one audit entry of the stated shape. -/
theorem one_audit_entry_per_mutation_witness :
    (∃ e : AuditRow,
      insertEmployee { employees := [], audit := [] } exActor "e2"
          [("name", Value.vStr "Carol")] =
        .ok { employees := [("e2", [("name", Value.vStr "Carol")])], audit := [e] } ∧
      e.action = "INSERT" ∧ e.old_data = none ∧
      e.new_data = some [("name", Value.vStr "Carol")] ∧ e.changes = none) ∧
    (∃ (e : AuditRow) (s2 : StoreState),
      updateEmployee exStore exActor "e1" exSnapB = .ok s2 ∧
      s2.audit = exStore.audit ++ [e] ∧ e.action = "UPDATE" ∧
      e.old_data = some exSnapA ∧ e.new_data = some exSnapB ∧
      e.changes = aggDiff exSnapA exSnapB) ∧
    (∃ (e : AuditRow) (s2 : StoreState),
      deleteEmployee exStore exActor "e1" = .ok s2 ∧
      s2.audit.length = exStore.audit.length + 1 ∧
      s2.audit.getLast? = some e ∧ e.action = "DELETE" ∧
      e.old_data = some exSnapA ∧ e.new_data = none ∧ e.changes = none) := by
  refine ⟨?_, ?_, ?_⟩
  · have h := one_audit_entry_per_mutation.1 { employees := [], audit := [] }
      exActor exProfile "e2" [("name", Value.vStr "Carol")] rfl
    simpa using h
  · exact one_audit_entry_per_mutation.2.1 exStore exActor exProfile "e1"
      exSnapA exSnapB rfl (by decide)
  · exact one_audit_entry_per_mutation.2.2 exStore exActor exProfile "e1"
      exSnapA rfl (by decide)

/-- Claim C3: deleting a record never deletes its previously written
audit entries; after the row is removed their record reference becomes
null while all their other columns survive unchanged; and the DELETE
entry itself records the full pre-deletion row image, since the trigger
fires BEFORE DELETE. -/
theorem delete_preserves_audit (s : StoreState) (actor : Actor) (p : Profile)
    (eid : String) (snap : Snapshot)
    (hp : actor.profile = some p) (hrow : alookup eid s.employees = some snap) :
    ∃ s2 : StoreState, deleteEmployee s actor eid = .ok s2 ∧
      s2.audit.length = s.audit.length + 1 ∧
      (∀ r ∈ s.audit, ∃ r2 ∈ s2.audit,
        r2.action = r.action ∧ r2.changed_by = r.changed_by ∧
        r2.changed_by_email = r.changed_by_email ∧
        r2.old_data = r.old_data ∧ r2.new_data = r.new_data ∧
        r2.changes = r.changes ∧
        r2.employee_id = (if r.employee_id = some eid then none else r.employee_id)) ∧
      (∀ r2 ∈ s2.audit, r2.employee_id ≠ some eid) ∧
      (∃ e ∈ s2.audit, e.action = "DELETE" ∧ e.old_data = some snap ∧
        e.new_data = none) := by
  have hdel : deleteEmployee s actor eid =
      .ok { employees := s.employees.filter (fun q => decide (q.1 ≠ eid))
            audit := (s.audit ++
              [({ employee_id := some eid, action := "DELETE", changed_by := actor.uid
                  changed_by_email := some p.email, changed_by_name := p.full_name
                  old_data := some snap, new_data := none,
                  changes := none } : AuditRow)]).map (fkSetNull eid) } := by
    simp [deleteEmployee, hrow, logEmployeeChange, insertAuditRow, hp]
  refine ⟨_, hdel, by simp, ?_, ?_, ?_⟩
  · intro r hr
    refine ⟨fkSetNull eid r, ?_, ?_⟩
    · exact List.mem_map_of_mem _ (List.mem_append_left _ hr)
    · by_cases hid : r.employee_id = some eid
      · simp [fkSetNull, hid]
      · simp [fkSetNull, hid]
  · intro r2 hr2
    rcases List.mem_map.mp hr2 with ⟨r, -, rfl⟩
    by_cases hid : r.employee_id = some eid
    · simp [fkSetNull, hid]
    · simp [fkSetNull, hid]
  · refine ⟨fkSetNull eid
        { employee_id := some eid, action := "DELETE", changed_by := actor.uid,
          changed_by_email := some p.email, changed_by_name := p.full_name,
          old_data := some snap, new_data := none, changes := none }, ?_, ?_⟩
    · exact List.mem_map_of_mem _ (List.mem_append_right _ (List.mem_singleton.mpr rfl))
    · simp [fkSetNull]

/-- Witness: deleting employee e1 from the concrete store keeps the
prior entry (reference nulled) and appends a DELETE entry holding the
pre-deletion image. -/
theorem delete_preserves_audit_witness :
    ∃ s2 : StoreState, deleteEmployee exStore exActor "e1" = .ok s2 ∧
      s2.audit.length = exStore.audit.length + 1 ∧
      (∀ r ∈ exStore.audit, ∃ r2 ∈ s2.audit,
        r2.action = r.action ∧ r2.changed_by = r.changed_by ∧
        r2.changed_by_email = r.changed_by_email ∧
        r2.old_data = r.old_data ∧ r2.new_data = r.new_data ∧
        r2.changes = r.changes ∧
        r2.employee_id = (if r.employee_id = some "e1" then none else r.employee_id)) ∧
      (∀ r2 ∈ s2.audit, r2.employee_id ≠ some "e1") ∧
      (∃ e ∈ s2.audit, e.action = "DELETE" ∧ e.old_data = some exSnapA ∧
        e.new_data = none) :=
  delete_preserves_audit exStore exActor exProfile "e1" exSnapA rfl (by decide)

/-- Claim C4: for an UPDATE in which no field other than the update
timestamp changes, the trigger still writes an UPDATE audit entry (no
suppression) whose computed diff is empty (stored as NULL by
jsonb_object_agg over zero rows), while the dispatcher, given a payload
with no qualifying change, hands zero emails to the transport and
answers 200. -/
theorem noop_update_audited_without_email
    (s : StoreState) (actor : Actor) (p : Profile) (eid : String)
    (old new : Snapshot) (req : NotifyRequest)
    (hp : actor.profile = some p) (hrow : alookup eid s.employees = some old)
    (hnochange : ∀ F ∈ keyUnion (skeys old) (skeys new), F ≠ "updated_at" →
      pgSerOpt (alookup F old) = pgSerOpt (alookup F new))
    (hpayload : ∀ kv ∈ req.newData, changeCond req.oldData kv.1 kv.2 = false) :
    changesOf old new = [] ∧
    updateEmployee s actor eid new =
      .ok { employees := s.employees.map (fun q => if q.1 = eid then (eid, new) else q)
            audit := s.audit ++
              [{ employee_id := some eid, action := "UPDATE", changed_by := actor.uid
                 changed_by_email := some p.email, changed_by_name := p.full_name
                 old_data := some old, new_data := some new, changes := none }] } ∧
    dispatcherChanges req.oldData req.newData = [] ∧
    (∀ rolesRes profRes sendRes,
      (handler req rolesRes profRes sendRes).emailedTo = []) ∧
    (∀ ids emails sendRes,
      handler req (.ok ids) (.ok emails) sendRes = { status := 200, emailedTo := [] }) := by
  have hch : changesOf old new = [] := by
    have hfil : (keyUnion (skeys old) (skeys new)).filter (changedB old new) = [] := by
      rw [List.filter_eq_nil_iff]
      intro k hk
      by_cases hua : k = "updated_at"
      · simp [changedB, hua]
      · simp [changedB, hua, hnochange k hk hua]
    simp [changesOf, hfil]
  have hdisp : dispatcherChanges req.oldData req.newData = [] := by
    rw [dispatcherChanges, List.filterMap_eq_nil_iff]
    intro kv hkv
    simp [hpayload kv hkv]
  refine ⟨hch, ?_, hdisp, ?_, ?_⟩
  · simp [updateEmployee, hrow, logEmployeeChange, insertAuditRow, hp, aggDiff, hch]
  · intro rolesRes profRes sendRes
    cases rolesRes with
    | error e => rfl
    | ok ids =>
        by_cases hids : ids.isEmpty
        · simp [handler, hids]
        · cases profRes with
          | error e => simp [handler, hids]
          | ok emails => simp [handler, hids, hdisp]
  · intro ids emails sendRes
    by_cases hids : ids.isEmpty
    · simp [handler, hids]
    · simp [handler, hids, hdisp]

/-- Witness: a concrete timestamp-only update is audited with an empty
diff and a matching no-op payload produces no email and a 200. -/
theorem noop_update_audited_without_email_witness :
    changesOf exSnapA exSnapA2 = [] ∧
    updateEmployee exStore exActor "e1" exSnapA2 =
      .ok { employees := [("e1", exSnapA2)]
            audit := exStore.audit ++
              [{ employee_id := some "e1", action := "UPDATE", changed_by := "user-1"
                 changed_by_email := some "admin@office.test"
                 changed_by_name := some "Admin User"
                 old_data := some exSnapA, new_data := some exSnapA2, changes := none }] } ∧
    dispatcherChanges exReqNoop.oldData exReqNoop.newData = [] ∧
    (∀ rolesRes profRes sendRes,
      (handler exReqNoop rolesRes profRes sendRes).emailedTo = []) ∧
    (∀ ids emails sendRes,
      handler exReqNoop (.ok ids) (.ok emails) sendRes =
        { status := 200, emailedTo := [] }) := by
  have h := noop_update_audited_without_email exStore exActor exProfile "e1"
    exSnapA exSnapA2 exReqNoop rfl (by decide) (by decide) (by decide)
  simpa [exStore, exActor, exProfile, exSnapA, exSnapA2] using h

/-- Counterexample to claim C5: with an actor whose profiles lookup
finds no row, an update of an existing employee does not produce an
audit entry with empty identity fields; the NOT NULL constraint on
changed_by_email rejects the audit insert and the whole mutation
aborts. -/
theorem profile_lookup_failure_counterexample :
    deleteEmployee exStore exActorNoProfile "e1" = .error notNullViolation ∧
    updateEmployee exStore exActorNoProfile "e1" exSnapB =
      .error notNullViolation := by
  constructor <;> rfl

/-- Claim C5 as amended: when the profile lookup fails, the SELECT INTO
leaves both identity variables NULL without raising, but the audit
insert then violates the NOT NULL constraint on changed_by_email, so
the audit write and the enclosing mutation abort (fail closed).
Graceful degradation holds only for the display name: a present profile
with NULL full_name still yields a written entry with a null
changed_by_name. -/
theorem profile_lookup_failure_aborts :
    (∀ (s : StoreState) (actor : Actor) (eid : String) (oldSnap newSnap : Snapshot),
      actor.profile = none → alookup eid s.employees = some oldSnap →
      updateEmployee s actor eid newSnap = .error notNullViolation) ∧
    (∀ (s : StoreState) (actor : Actor) (p : Profile) (eid : String)
        (oldSnap newSnap : Snapshot),
      actor.profile = some p → p.full_name = none →
      alookup eid s.employees = some oldSnap →
      ∃ (e : AuditRow) (s2 : StoreState),
        updateEmployee s actor eid newSnap = .ok s2 ∧ s2.audit = s.audit ++ [e] ∧
        e.changed_by_name = none ∧ e.changed_by_email = some p.email) := by
  constructor
  · intro s actor eid oldSnap newSnap hp hrow
    simp [updateEmployee, hrow, logEmployeeChange, insertAuditRow, hp]
  · intro s actor p eid oldSnap newSnap hp hname hrow
    refine ⟨{ employee_id := some eid, action := "UPDATE", changed_by := actor.uid
              changed_by_email := some p.email, changed_by_name := none
              old_data := some oldSnap, new_data := some newSnap
              changes := aggDiff oldSnap newSnap },
            { employees := s.employees.map (fun q => if q.1 = eid then (eid, newSnap) else q)
              audit := s.audit ++
                [{ employee_id := some eid, action := "UPDATE", changed_by := actor.uid
                   changed_by_email := some p.email, changed_by_name := none
                   old_data := some oldSnap, new_data := some newSnap
                   changes := aggDiff oldSnap newSnap }] },
            ?_, rfl, rfl, rfl⟩
    simp [updateEmployee, hrow, logEmployeeChange, insertAuditRow, hp, hname]

/-- Witness: the abort with a profileless actor, and the graceful
null-name entry with a named-less profile, both at concrete inputs. -/
theorem profile_lookup_failure_aborts_witness :
    updateEmployee exStore exActorNoProfile "e1" exSnapA2 =
      .error notNullViolation ∧
    (∃ (e : AuditRow) (s2 : StoreState),
      updateEmployee exStore exActorNoName "e1" exSnapB = .ok s2 ∧
      s2.audit = exStore.audit ++ [e] ∧
      e.changed_by_name = none ∧ e.changed_by_email = some "noname@office.test") :=
  ⟨profile_lookup_failure_aborts.1 exStore exActorNoProfile "e1" exSnapA exSnapA2
      rfl (by decide),
   profile_lookup_failure_aborts.2 exStore exActorNoName
      { email := "noname@office.test", full_name := none } "e1" exSnapA exSnapB
      rfl rfl (by decide)⟩

/-- Claim C6: the outcome of the update submission is unchanged by the
notification result; when the update itself succeeded, the user sees
the success toast and no error toast and the flow completes, whatever
the notification dispatch did. -/
theorem update_success_reported_regardless_of_notify :
    (∀ (updateRes : Except String Unit) (n1 n2 : Except String Unit),
      onSubmitUpdate updateRes n1 = onSubmitUpdate updateRes n2) ∧
    (∀ notifyRes : Except String Unit,
      onSubmitUpdate (.ok ()) notifyRes =
        { toasts := [.success "Employee updated successfully"]
          notifyAttempted := true, completedNavigation := true }) ∧
    (∀ (notifyRes : Except String Unit) (msg : String),
      ToastMsg.error msg ∉ (onSubmitUpdate (.ok ()) notifyRes).toasts) := by
  refine ⟨?_, ?_, ?_⟩
  · intro updateRes n1 n2
    cases updateRes with
    | error e => rfl
    | ok u => cases n1 with
      | error e1 => cases n2 with
        | error e2 => rfl
        | ok u2 => rfl
      | ok u1 => cases n2 with
        | error e2 => rfl
        | ok u2 => rfl
  · intro notifyRes
    cases notifyRes with
    | error e => rfl
    | ok u => rfl
  · intro notifyRes msg
    cases notifyRes with
    | error e => simp [onSubmitUpdate]
    | ok u => simp [onSubmitUpdate]

/-- Claim C8: with zero admin-capability holders resolved, the handler
is a successful no-op: 200 response and no email handed over,
whatever the profile and transport collaborators would have
returned. -/
theorem no_admins_successful_noop (req : NotifyRequest)
    (profRes : Except String (List String)) (sendRes : Except String String) :
    handler req (.ok []) profRes sendRes = { status := 200, emailedTo := [] } := by
  rfl

/-- Counterexample to claim C7: a field present only in the old payload
(location, neither id nor created_at) is reported by the Change Differ
but the dispatcher diff, which iterates only the keys of newData, never
sees it — so the dispatcher diff is not the Change Differ minus id and
created_at. -/
theorem dispatcher_diff_counterexample :
    "location" ∈ (changesOf exOld7 exNew7).map Prod.fst ∧
    "location" ∉ (["id", "created_at"] : List String) ∧
    "location" ∉ dispatcherChangedKeys exOld7 exNew7 := by
  decide

/-- Claim C7 as amended: restricted to the keys of newData (the loop
iterates only those), and at fields where JS strict comparison agrees
with serialized-text comparison, the dispatcher diff coincides with the
Change Differ with id and created_at additionally excluded; fields
absent from newData never appear even when the Change Differ reports
them. -/
theorem dispatcher_diff_refinement (old new : Snapshot) (F : String)
    (hnd : (skeys new).Nodup)
    (hcompat : jsStrictNe (alookup F old) (alookup F new) = true ↔
      pgSerOpt (alookup F old) ≠ pgSerOpt (alookup F new)) :
    F ∈ dispatcherChangedKeys old new ↔
      (F ∈ skeys new ∧ F ∉ (["id", "created_at"] : List String) ∧
        F ∈ (changesOf old new).map Prod.fst) := by
  constructor
  · intro h
    rcases List.mem_filterMap.mp h with ⟨kv, hkv, hg⟩
    by_cases hcond : changeCond old kv.1 kv.2 = true
    · rw [if_pos hcond] at hg
      injection hg with hF
      subst hF
      obtain ⟨hua, hca, hid, hne⟩ : kv.1 ≠ "updated_at" ∧ kv.1 ≠ "created_at" ∧
          kv.1 ≠ "id" ∧ jsStrictNe (alookup kv.1 old) (some kv.2) = true := by
        simpa [changeCond, Bool.and_eq_true, decide_eq_true_eq, and_assoc] using hcond
      have hlook : alookup kv.1 new = some kv.2 := by
        have : (kv.1, kv.2) ∈ new := by simpa using hkv
        exact alookup_of_nodup_mem hnd this
      have hmemk : kv.1 ∈ skeys new := by
        simpa [skeys] using List.mem_map_of_mem Prod.fst hkv
      have hser : pgSerOpt (alookup kv.1 old) ≠ pgSerOpt (alookup kv.1 new) := by
        refine hcompat.mp ?_
        rw [hlook]
        exact hne
      exact ⟨hmemk, by simp [hid, hca],
        (mem_changesOf_keys old new kv.1).mpr ⟨hser, hua⟩⟩
    · rw [if_neg hcond] at hg
      exact absurd hg (by simp)
  · rintro ⟨hmemk, hnotic, hchg⟩
    obtain ⟨v, hv⟩ := mem_skeys_alookup hmemk
    have hpair : (F, v) ∈ new := alookup_mem hv
    obtain ⟨hser, hua⟩ := (mem_changesOf_keys old new F).mp hchg
    have hne : jsStrictNe (alookup F old) (some v) = true := by
      have := hcompat.mpr hser
      rwa [hv] at this
    have hid : F ≠ "id" := by
      intro he
      exact hnotic (by simp [he])
    have hca : F ≠ "created_at" := by
      intro he
      exact hnotic (by simp [he])
    refine List.mem_filterMap.mpr ⟨(F, v), hpair, ?_⟩
    have hcond : changeCond old F v = true := by
      simp [changeCond, hua, hca, hid, hne]
    simp [hcond]

/-- Witness: at a concrete pair whose values compare compatibly, the
amended equivalence yields the expected dispatcher diff membership. -/
theorem dispatcher_diff_refinement_witness :
    "name" ∈ dispatcherChangedKeys [("name", Value.vStr "Alice")]
      [("name", Value.vStr "Bob")] :=
  (dispatcher_diff_refinement [("name", Value.vStr "Alice")]
      [("name", Value.vStr "Bob")] "name" (by decide) (by decide)).mpr
    (by decide)

/-- Claim C9: every qualifying changed field is rendered with its human
label from fieldLabels, falling back to the raw field name when no
label is defined, and the serialized boolean texts true / false render
as Yes / No; concretely, internet_access flipping true to false renders
as Internet Access, Yes, No. -/
theorem changed_field_rendering (old new : Snapshot) :
    (∀ kv ∈ new, changeCond old kv.1 kv.2 = true →
      renderChange old kv.1 kv.2 ∈ dispatcherChanges old new ∧
      renderChange old kv.1 kv.2 =
        { field := labelFor kv.1
          oldValue := yesNo (jsDisplay (alookup kv.1 old))
          newValue := yesNo (jsDisplay (some kv.2)) }) ∧
    (∀ k : String, alookup k fieldLabels = none → labelFor k = k) ∧
    yesNo "true" = "Yes" ∧ yesNo "false" = "No" ∧
    dispatcherChanges exIAOld exIANew =
      [{ field := "Internet Access", oldValue := "Yes", newValue := "No" }] := by
  refine ⟨?_, ?_, rfl, rfl, by decide⟩
  · intro kv hkv hcond
    refine ⟨List.mem_filterMap.mpr ⟨kv, hkv, by simp [hcond]⟩, rfl⟩
  · intro k hk
    simp [labelFor, hk]

/-- Witness: the concrete internet_access change row produced through
the rendering theorem. -/
theorem changed_field_rendering_witness :
    ({ field := "Internet Access", oldValue := "Yes", newValue := "No" } : Change) ∈
      dispatcherChanges exIAOld exIANew := by
  have h := (changed_field_rendering exIAOld exIANew).1
    ("internet_access", Value.vBool false) (by decide) (by decide)
  simpa [renderChange, labelFor, fieldLabels, alookup, yesNo, jsDisplay, jsToString,
    exIAOld] using h.1

/-- Claim C10: every field in the dispatcher diff originates from a key
of newData; the update form sends only the validated schema fields as
newData, so the bookkeeping and custom-peripheral fields of the old row
image never appear in the diff, nor as the field column of any rendered
change row — an update changing only custom peripherals yields no
notification row about them. -/
theorem absent_payload_fields_never_notified :
    (∀ (old new : Snapshot) (F : String),
      F ∈ dispatcherChangedKeys old new → F ∈ skeys new) ∧
    (∀ (old newData : Snapshot),
      (∀ k ∈ skeys newData, k ∈ employeeSchemaKeys) →
      (∀ F ∈ hiddenFields, F ∉ dispatcherChangedKeys old newData) ∧
      (∀ c ∈ dispatcherChanges old newData, c.field ∉ hiddenFields)) := by
  have horigin : ∀ (old new : Snapshot) (F : String),
      F ∈ dispatcherChangedKeys old new → F ∈ skeys new := by
    intro old new F h
    rcases List.mem_filterMap.mp h with ⟨kv, hkv, hg⟩
    by_cases hcond : changeCond old kv.1 kv.2 = true
    · rw [if_pos hcond] at hg
      injection hg with hF
      subst hF
      simpa [skeys] using List.mem_map_of_mem Prod.fst hkv
    · rw [if_neg hcond] at hg
      exact absurd hg (by simp)
  refine ⟨horigin, ?_⟩
  intro old newData hsub
  have hschema_hidden : ∀ F ∈ hiddenFields, F ∉ employeeSchemaKeys := by decide
  have hlabels_hidden : ∀ k ∈ employeeSchemaKeys, labelFor k ∉ hiddenFields := by
    decide
  constructor
  · intro F hF hmem
    exact hschema_hidden F hF (hsub F (horigin old newData F hmem))
  · intro c hc
    rcases List.mem_filterMap.mp hc with ⟨kv, hkv, hg⟩
    by_cases hcond : changeCond old kv.1 kv.2 = true
    · rw [if_pos hcond] at hg
      injection hg with hcfield
      have hk : kv.1 ∈ employeeSchemaKeys := by
        refine hsub kv.1 ?_
        simpa [skeys] using List.mem_map_of_mem Prod.fst hkv
      have := hlabels_hidden kv.1 hk
      rw [← hcfield]
      simpa [renderChange] using this
    · rw [if_neg hcond] at hg
      exact absurd hg (by simp)

/-- Witness: with the concrete form payload (schema keys only) and an
old image carrying a custom_peripherals composite, that field never
enters the dispatcher diff and no rendered row names it. -/
theorem absent_payload_fields_never_notified_witness :
    "custom_peripherals" ∉ dispatcherChangedKeys exOldCP exNewCP ∧
    (∀ c ∈ dispatcherChanges exOldCP exNewCP, c.field ∉ hiddenFields) := by
  have h := absent_payload_fields_never_notified.2 exOldCP exNewCP (by decide)
  exact ⟨h.1 "custom_peripherals" (by decide), h.2⟩

end OfficeHub
